import Mathlib

/-
Verification development for `tools/scripts/generate_assets.py`: a shallow
embedding of the asset-generation pipeline (data model, rate limiter, provider
routing, the Midjourney poll loop, artifact persistence, batch orchestration
and config loading), together with theorems settling the specification claims.

Modeling conventions:
  * Python `float` timestamps (`time.time()`) are modeled as rationals (`ℚ`).
  * Byte strings are `List Nat` with entries below 256.
  * Filesystem paths (pathlib `Path` values built by `/`-joining components)
    are modeled as their component lists (`List String`); the filesystem is an
    association list from paths to file contents, where a later write shadows
    an earlier one.
  * `print` side effects are modeled as a list of `LogEvent` values, one
    constructor per print site that the claims talk about.
  * Exceptions (`IndexError`, `ValueError`, `TypeError`) are modeled with
    `Except PyError`.
  * Remote services are opaque (out of scope per the spec); an `Env` record
    supplies the network response for each outbound call.
-/

namespace GenAssets

/- Byte strings: lists of naturals below 256. -/
abbrev Bytes := List Nat

inductive PyError where
  | indexError
  | valueError (msg : String)
  | typeError (msg : String)
deriving DecidableEq, Repr

/-
AssetRequest (generate_assets.py lines 58-75): dataclass with required
`prompt`, `type`, `category` and defaulted remaining fields.  `tags = None`
and `metadata = None` are normalized to empty by `__post_init__`; the model
uses the normalized form directly.
-/
structure AssetRequest where
  prompt : String
  type : String
  category : String
  style : String := "cyberpunk"
  width : Int := 512
  height : Int := 512
  duration : ℚ := 2
  quality : ℚ := 8/10
  tags : List String := []
  metadata : List (String × String) := []
deriving DecidableEq, Repr

/-
RateLimiter (lines 439-457).  `wait` is modeled as a function from the
limiter state and the entry time `now` to the new state and the time at which
the call returns (the admission time): when the quota is reached the caller
sleeps `wait_time` seconds and so returns at `now + wait_time`.  Note the code
appends the entry time `now` (not the post-sleep time) and does not re-check
after sleeping.  `self.requests[0]` on an empty list is an `IndexError`.
-/
structure RateLimiter where
  requests_per_minute : Nat
  requests : List ℚ
deriving DecidableEq, Repr

def RateLimiter.init (requests_per_minute : Nat) : RateLimiter :=
  { requests_per_minute := requests_per_minute, requests := [] }

def RateLimiter.wait (rl : RateLimiter) (now : ℚ) : Except PyError (RateLimiter × ℚ) :=
  let pruned := rl.requests.filter (fun reqTime => now - reqTime < 60)
  if rl.requests_per_minute ≤ pruned.length then
    match pruned with
    | [] => .error .indexError
    | t0 :: _ =>
      let waitTime := 60 - (now - t0)
      let ret := if 0 < waitTime then now + waitTime else now
      .ok ({ rl with requests := pruned ++ [now] }, ret)
  else
    .ok ({ rl with requests := pruned ++ [now] }, now)

end GenAssets

namespace GenAssets

/-- C1: the quota-1 limiter, driven by three serialized `wait` calls entering
at times 0, 1 and 60 (each entry at or after the previous call's return),
returns (admits) at times 0, 60 and 61: the admissions at 60 and 61 are one
second apart, so a rolling 60-second window holds 2 > 1 admissions.  The
recorded timestamp list `[1, 60]` violates the window bound as well. -/
theorem rateLimiter_sliding_window_violated :
    RateLimiter.wait (RateLimiter.init 1) 0 =
      .ok ({ requests_per_minute := 1, requests := [0] }, 0) ∧
    RateLimiter.wait { requests_per_minute := 1, requests := [0] } 1 =
      .ok ({ requests_per_minute := 1, requests := [0, 1] }, 60) ∧
    RateLimiter.wait { requests_per_minute := 1, requests := [0, 1] } 60 =
      .ok ({ requests_per_minute := 1, requests := [1, 60] }, 61) ∧
    ((0 : ℚ) ≤ 0 ∧ (0 : ℚ) ≤ 1 ∧ (60 : ℚ) ≤ 60) ∧
    ((61 : ℚ) - 60 < 60 ∧ 1 < 2) := by
  refine ⟨rfl, ?_, ?_, by norm_num, by norm_num⟩ <;>
    · simp only [RateLimiter.wait]
      norm_num

/-- C9 counterexample: constructing a RateLimiter with quota 0 does not fail;
it yields an ordinary limiter state, and the failure only appears later: the
very first `wait()` call raises an `IndexError` (`self.requests[0]` on an
empty list). -/
theorem rateLimiter_zero_quota_accepted :
    RateLimiter.init 0 = { requests_per_minute := 0, requests := [] } ∧
    RateLimiter.wait (RateLimiter.init 0) 0 = .error .indexError := by
  exact ⟨rfl, rfl⟩

/-- C9 amended: a quota of 0 is accepted at construction (no validation is
performed), and every first acquisition on the freshly constructed limiter
raises an `IndexError`, so such a limiter never successfully admits a call. -/
theorem rateLimiter_zero_quota_wait_errors :
    ∀ now : ℚ, RateLimiter.wait (RateLimiter.init 0) now = .error .indexError := by
  intro now
  rfl

end GenAssets

namespace GenAssets

/-
Executable MD5 and SHA-256 over byte lists, used by `_generate_asset_id`
(hashlib.md5) and `_save_asset` (hashlib.sha256).  32-bit machine arithmetic
is Nat arithmetic reduced modulo 2^32; hexdigest output is the usual
lowercase-hex string.  `utf8Bytes` models `str.encode('utf-8')`.
-/

def m32 (x : Nat) : Nat := x % 4294967296

def not32 (x : Nat) : Nat := x ^^^ 4294967295

def rotl32 (x s : Nat) : Nat := m32 ((x <<< s) ||| (x >>> (32 - s)))

def rotr32 (x s : Nat) : Nat := m32 ((x >>> s) ||| (x <<< (32 - s)))

def leWord (b0 b1 b2 b3 : Nat) : Nat := b0 + 256 * b1 + 65536 * b2 + 16777216 * b3

def wordBytesLE (w : Nat) : Bytes := [w % 256, w / 256 % 256, w / 65536 % 256, w / 16777216 % 256]

def wordBytesBE (w : Nat) : Bytes := [w / 16777216 % 256, w / 65536 % 256, w / 256 % 256, w % 256]

def chunksAux : Nat → Bytes → List Bytes
  | 0, _ => []
  | _, [] => []
  | fuel + 1, l => l.take 64 :: chunksAux fuel (l.drop 64)

def md5K : List Nat :=
  [3614090360, 3905402710, 606105819, 3250441966, 4118548399, 1200080426, 2821735955, 4249261313,
   1770035416, 2336552879, 4294925233, 2304563134, 1804603682, 4254626195, 2792965006, 1236535329,
   4129170786, 3225465664, 643717713, 3921069994, 3593408605, 38016083, 3634488961, 3889429448,
   568446438, 3275163606, 4107603335, 1163531501, 2850285829, 4243563512, 1735328473, 2368359562,
   4294588738, 2272392833, 1839030562, 4259657740, 2763975236, 1272893353, 4139469664, 3200236656,
   681279174, 3936430074, 3572445317, 76029189, 3654602809, 3873151461, 530742520, 3299628645,
   4096336452, 1126891415, 2878612391, 4237533241, 1700485571, 2399980690, 4293915773, 2240044497,
   1873313359, 4264355552, 2734768916, 1309151649, 4149444226, 3174756917, 718787259, 3951481745]

def md5S : List Nat :=
  [7, 12, 17, 22, 7, 12, 17, 22, 7, 12, 17, 22, 7, 12, 17, 22,
   5, 9, 14, 20, 5, 9, 14, 20, 5, 9, 14, 20, 5, 9, 14, 20,
   4, 11, 16, 23, 4, 11, 16, 23, 4, 11, 16, 23, 4, 11, 16, 23,
   6, 10, 15, 21, 6, 10, 15, 21, 6, 10, 15, 21, 6, 10, 15, 21]

def md5Round (i : Nat) (st : Nat × Nat × Nat × Nat) (M : Nat → Nat) : Nat × Nat × Nat × Nat :=
  let (a, b, c, d) := st
  let fg : Nat × Nat :=
    if i < 16 then ((b &&& c) ||| (not32 b &&& d), i)
    else if i < 32 then ((d &&& b) ||| (not32 d &&& c), (5 * i + 1) % 16)
    else if i < 48 then (b ^^^ c ^^^ d, (3 * i + 5) % 16)
    else (c ^^^ (b ||| not32 d), (7 * i) % 16)
  let f := m32 (fg.1 + a + md5K.getD i 0 + M fg.2)
  (d, m32 (b + rotl32 f (md5S.getD i 0)), b, c)

def md5Loop : Nat → Nat → (Nat × Nat × Nat × Nat) → (Nat → Nat) → Nat × Nat × Nat × Nat
  | _, 0, st, _ => st
  | i, r + 1, st, M => md5Loop (i + 1) r (md5Round i st M) M

def md5ProcessBlock (h : Nat × Nat × Nat × Nat) (block : Bytes) : Nat × Nat × Nat × Nat :=
  let M : Nat → Nat := fun g =>
    leWord (block.getD (4 * g) 0) (block.getD (4 * g + 1) 0)
      (block.getD (4 * g + 2) 0) (block.getD (4 * g + 3) 0)
  let (a, b, c, d) := md5Loop 0 64 h M
  (m32 (h.1 + a), m32 (h.2.1 + b), m32 (h.2.2.1 + c), m32 (h.2.2.2 + d))

def lenBytesLE (bitLen : Nat) : Bytes :=
  (List.range 8).map (fun i => bitLen >>> (8 * i) % 256)

def md5Pad (msg : Bytes) : Bytes :=
  let len := msg.length
  let k := (119 - len % 64) % 64
  msg ++ 0x80 :: List.replicate k 0 ++ lenBytesLE (8 * len)

def md5 (msg : Bytes) : Bytes :=
  let padded := md5Pad msg
  let blocks := chunksAux padded.length padded
  let h := blocks.foldl md5ProcessBlock (1732584193, 4023233417, 2562383102, 271733878)
  wordBytesLE h.1 ++ wordBytesLE h.2.1 ++ wordBytesLE h.2.2.1 ++ wordBytesLE h.2.2.2

def hexDigitChars : List Char := "0123456789abcdef".data

def byteHexChars (b : Nat) : List Char := [hexDigitChars.getD (b / 16) '0', hexDigitChars.getD (b % 16) '0']

def hexChars (bs : Bytes) : List Char := bs.flatMap byteHexChars

def md5hexdigest (msg : Bytes) : String := String.mk (hexChars (md5 msg))

def utf8Bytes : List Char → Bytes
  | [] => []
  | c :: cs =>
    let n := c.toNat
    (if n < 128 then [n]
     else if n < 2048 then [192 + n / 64, 128 + n % 64]
     else if n < 65536 then [224 + n / 4096, 128 + n / 64 % 64, 128 + n % 64]
     else [240 + n / 262144, 128 + n / 4096 % 64, 128 + n / 64 % 64, 128 + n % 64]) ++ utf8Bytes cs

def strBytes (s : String) : Bytes := utf8Bytes s.data

def sha256K : List Nat :=
  [1116352408, 1899447441, 3049323471, 3921009573, 961987163, 1508970993, 2453635748, 2870763221,
   3624381080, 310598401, 607225278, 1426881987, 1925078388, 2162078206, 2614888103, 3248222580,
   3835390401, 4022224774, 264347078, 604807628, 770255983, 1249150122, 1555081692, 1996064986,
   2554220882, 2821834349, 2952996808, 3210313671, 3336571891, 3584528711, 113926993, 338241895,
   666307205, 773529912, 1294757372, 1396182291, 1695183700, 1986661051, 2177026350, 2456956037,
   2730485921, 2820302411, 3259730800, 3345764771, 3516065817, 3600352804, 4094571909, 275423344,
   430227734, 506948616, 659060556, 883997877, 958139571, 1322822218, 1537002063, 1747873779,
   1955562222, 2024104815, 2227730452, 2361852424, 2428436474, 2756734187, 3204031479, 3329325298]

def beWord (b0 b1 b2 b3 : Nat) : Nat := 16777216 * b0 + 65536 * b1 + 256 * b2 + b3

def sha256Extend : Nat → List Nat → List Nat
  | 0, w => w
  | r + 1, w =>
    let n := w.length
    let s0 := rotr32 (w.getD (n - 15) 0) 7 ^^^ rotr32 (w.getD (n - 15) 0) 18 ^^^ (w.getD (n - 15) 0 >>> 3)
    let s1 := rotr32 (w.getD (n - 2) 0) 17 ^^^ rotr32 (w.getD (n - 2) 0) 19 ^^^ (w.getD (n - 2) 0 >>> 10)
    sha256Extend r (w ++ [m32 (w.getD (n - 16) 0 + s0 + w.getD (n - 7) 0 + s1)])

abbrev Regs := Nat × Nat × Nat × Nat × Nat × Nat × Nat × Nat

def sha256Round (i : Nat) (st : Regs) (w : List Nat) : Regs :=
  let (a, b, c, d, e, f, g, h) := st
  let S1 := rotr32 e 6 ^^^ rotr32 e 11 ^^^ rotr32 e 25
  let ch := (e &&& f) ^^^ (not32 e &&& g)
  let temp1 := m32 (h + S1 + ch + sha256K.getD i 0 + w.getD i 0)
  let S0 := rotr32 a 2 ^^^ rotr32 a 13 ^^^ rotr32 a 22
  let maj := (a &&& b) ^^^ (a &&& c) ^^^ (b &&& c)
  let temp2 := m32 (S0 + maj)
  (m32 (temp1 + temp2), a, b, c, m32 (d + temp1), e, f, g)

def sha256Loop : Nat → Nat → Regs → List Nat → Regs
  | _, 0, st, _ => st
  | i, r + 1, st, w => sha256Loop (i + 1) r (sha256Round i st w) w

def sha256ProcessBlock (h : Regs) (block : Bytes) : Regs :=
  let w0 := (List.range 16).map (fun g =>
    beWord (block.getD (4 * g) 0) (block.getD (4 * g + 1) 0)
      (block.getD (4 * g + 2) 0) (block.getD (4 * g + 3) 0))
  let w := sha256Extend 48 w0
  let (a, b, c, d, e, f, g, hh) := sha256Loop 0 64 h w
  let (h0, h1, h2, h3, h4, h5, h6, h7) := h
  (m32 (h0 + a), m32 (h1 + b), m32 (h2 + c), m32 (h3 + d),
   m32 (h4 + e), m32 (h5 + f), m32 (h6 + g), m32 (h7 + hh))

def lenBytesBE (bitLen : Nat) : Bytes :=
  (List.range 8).map (fun i => bitLen >>> (8 * (7 - i)) % 256)

def sha256Pad (msg : Bytes) : Bytes :=
  let len := msg.length
  let k := (119 - len % 64) % 64
  msg ++ 0x80 :: List.replicate k 0 ++ lenBytesBE (8 * len)

def sha256 (msg : Bytes) : Bytes :=
  let padded := sha256Pad msg
  let blocks := chunksAux padded.length padded
  let h := blocks.foldl sha256ProcessBlock
    (1779033703, 3144134277, 1013904242, 2773480762, 1359893119, 2600822924, 528734635, 1541459225)
  wordBytesBE h.1 ++ wordBytesBE h.2.1 ++ wordBytesBE h.2.2.1 ++ wordBytesBE h.2.2.2.1 ++
    wordBytesBE h.2.2.2.2.1 ++ wordBytesBE h.2.2.2.2.2.1 ++ wordBytesBE h.2.2.2.2.2.2.1 ++
    wordBytesBE h.2.2.2.2.2.2.2

def sha256hexdigest (msg : Bytes) : String := String.mk (hexChars (sha256 msg))

end GenAssets

namespace GenAssets

set_option maxRecDepth 400000 in
/-- Sanity check: the MD5 embedding reproduces the reference digest of the
empty message. -/
theorem md5_empty_test_vector : md5hexdigest [] = "d41d8cd98f00b204e9800998ecf8427e" := by rfl

set_option maxRecDepth 400000 in
/-- Sanity check: the SHA-256 embedding reproduces the reference digest of
"abc". -/
theorem sha256_abc_test_vector :
    sha256hexdigest (strBytes "abc") =
      "ba7816bf8f01cfea414140de5dae2223b00361a396177a9cb410ff61f20015ad" := by rfl

/-
`AssetGenerator._generate_asset_id` (lines 415-421):
    content    = f"{prompt}-{type}-{category}-{style}"
    short_hash = md5(content.encode('utf-8')).hexdigest()[:8]
    return f"{type}_{category}_{short_hash}_{int(time.time())}"
The coarse timestamp `int(time.time())` is the `timestamp : Nat` parameter;
hexdigest()[:8] is `take 8` at the character-list level.
-/
def idContent (r : AssetRequest) : String :=
  r.prompt ++ "-" ++ r.type ++ "-" ++ r.category ++ "-" ++ r.style

def shortHashChars (r : AssetRequest) : List Char :=
  (hexChars (md5 (strBytes (idContent r)))).take 8

def generateAssetId (r : AssetRequest) (timestamp : Nat) : String :=
  r.type ++ "_" ++ r.category ++ "_" ++ String.mk (shortHashChars r) ++ "_" ++ Nat.repr timestamp

/-
Filesystem model: paths are component lists (the `/`-joins performed on
pathlib objects, with the project root left implicit as a common prefix);
the store maps a path to its last written content.  A metadata sidecar holds
the dictionary written by `_save_asset` (lines 387-401).
-/
structure AssetMetadata where
  generation_service : String
  original_request : AssetRequest
  file_format : String
  file_size : Nat
  checksum : String
  created_at : String
  version : String
deriving DecidableEq, Repr

structure GeneratedAsset where
  id : String
  request : AssetRequest
  file_path : List String
  service_used : String
  generation_time : ℚ
  file_size : Nat
  checksum : String
  metadata : AssetMetadata
  created_at : String
deriving DecidableEq, Repr

inductive FileContent where
  | bin (data : Bytes)
  | meta (m : AssetMetadata)
deriving DecidableEq, Repr

abbrev FileSystem := List (List String × FileContent)

def fsWrite (fs : FileSystem) (p : List String) (c : FileContent) : FileSystem :=
  (p, c) :: fs

def fsRead : FileSystem → List String → Option FileContent
  | [], _ => none
  | (q, c) :: rest, p => if p = q then some c else fsRead rest p

/- CONFIG['output_dirs'] (lines 45-50); a missing key is a KeyError. -/
def outputDirs : List (String × String) :=
  [("2d", "assets/generated/2d"), ("3d", "assets/generated/3d"),
   ("audio", "assets/generated/audio"), ("metadata", "assets/generated/metadata")]

def lookupStr {α : Type} : List (String × α) → String → Option α
  | [], _ => none
  | (k, v) :: rest, key => if key = k then some v else lookupStr rest key

/-
`AssetGenerator._save_asset` (lines 364-413): derive the id, write the raw
bytes at `<output_dir>/<id>.<format>`, compute the SHA-256 checksum, write the
metadata sidecar at `<metadata_dir>/<id>.json`, and return the GeneratedAsset
record (generation_time 0.0, set later by the caller).  A missing output-dir
key would be a KeyError, modeled by `none`.
-/
def saveAsset (fs : FileSystem) (r : AssetRequest) (data : Bytes) (format service : String)
    (timestamp : Nat) (createdAt : String) : Option (FileSystem × GeneratedAsset) :=
  let asset_id := generateAssetId r timestamp
  match lookupStr outputDirs r.type with
  | none => none
  | some dir =>
    let filePath := [dir, asset_id ++ "." ++ format]
    let fs1 := fsWrite fs filePath (.bin data)
    let checksum := sha256hexdigest data
    let md : AssetMetadata :=
      { generation_service := service, original_request := r, file_format := format,
        file_size := data.length, checksum := checksum, created_at := createdAt,
        version := "1.0" }
    match lookupStr outputDirs "metadata" with
    | none => none
    | some mdir =>
      let fs2 := fsWrite fs1 [mdir, asset_id ++ ".json"] (.meta md)
      some (fs2,
        { id := asset_id, request := r, file_path := filePath, service_used := service,
          generation_time := 0, file_size := data.length, checksum := checksum,
          metadata := md, created_at := createdAt })

end GenAssets

namespace GenAssets

/-- C7: for a request of a recognized type (the AssetRequest data-model
invariant), a successful `_save_asset` yields a GeneratedAsset whose checksum
is the SHA-256 hexdigest of exactly the bytes passed in, and the file stored
at its `file_path` holds exactly those bytes, so reading it back reproduces
the input. -/
theorem save_checksum_and_roundtrip
    (fs : FileSystem) (r : AssetRequest) (data : Bytes) (format service : String)
    (timestamp : Nat) (createdAt : String) (fs2 : FileSystem) (a : GeneratedAsset)
    (htype : r.type ∈ (["2d", "3d", "audio"] : List String))
    (hsave : saveAsset fs r data format service timestamp createdAt = some (fs2, a)) :
    a.checksum = sha256hexdigest data ∧ fsRead fs2 a.file_path = some (.bin data) := by
  simp only [List.mem_cons, List.not_mem_nil, or_false] at htype
  unfold saveAsset at hsave
  rcases htype with hty | hty | hty <;>
    · rw [hty] at hsave
      simp only [lookupStr, outputDirs, reduceIte] at hsave
      obtain ⟨h1, h2⟩ := Prod.mk.injEq .. ▸ (Option.some.injEq .. ▸ hsave)
      subst h1
      subst h2
      exact ⟨rfl, by simp [fsRead, fsWrite]⟩

end GenAssets

namespace GenAssets

/-- Witness request for the persistence claim: the spec's concrete scenario
request (neon alley background). -/
def witnessRequest : AssetRequest :=
  { prompt := "neon alley", type := "2d", category := "background" }

set_option maxRecDepth 400000 in
/-- C7 witness: `save_checksum_and_roundtrip` applied to a concrete save of
three bytes for the neon-alley request. -/
theorem save_checksum_and_roundtrip_witness :
    witnessRequest.type ∈ (["2d", "3d", "audio"] : List String) ∧
    ∃ fs2 a, saveAsset [] witnessRequest [7, 8, 9] "png" "stability" 1700000000 "t0" =
        some (fs2, a) ∧
      a.checksum = sha256hexdigest [7, 8, 9] ∧ fsRead fs2 a.file_path = some (.bin [7, 8, 9]) :=
  ⟨by decide, _, _, rfl,
    save_checksum_and_roundtrip [] witnessRequest [7, 8, 9] "png" "stability" 1700000000 "t0"
      _ _ (by decide) rfl⟩

end GenAssets

namespace GenAssets

/- Support lemmas about the digest formats used by the identifier claims. -/

def pack4 : Bytes → Nat
  | b0 :: b1 :: b2 :: b3 :: _ => b0 + 256 * b1 + 65536 * b2 + 16777216 * b3
  | _ => 0

theorem string_mk_data (l : List Char) : (String.mk l).data = l := rfl

theorem md5_shape (msg : Bytes) :
    ∃ b0 b1 b2 b3 rest, md5 msg = b0 :: b1 :: b2 :: b3 :: rest ∧
      b0 < 256 ∧ b1 < 256 ∧ b2 < 256 ∧ b3 < 256 := by
  simp only [md5, wordBytesLE, List.cons_append, List.nil_append]
  refine ⟨_, _, _, _, _, rfl, ?_, ?_, ?_, ?_⟩ <;> omega

theorem pack4_md5_lt (msg : Bytes) : pack4 (md5 msg) < 4294967296 := by
  obtain ⟨b0, b1, b2, b3, rest, he, h0, h1, h2, h3⟩ := md5_shape msg
  rw [he]
  simp only [pack4]
  omega

theorem hexChars_take_eight (b0 b1 b2 b3 : Nat) (rest : Bytes) :
    (hexChars (b0 :: b1 :: b2 :: b3 :: rest)).take 8 =
      byteHexChars b0 ++ byteHexChars b1 ++ byteHexChars b2 ++ byteHexChars b3 := rfl

theorem md5_length (msg : Bytes) : (md5 msg).length = 16 := by
  simp [md5, wordBytesLE]

theorem hexChars_length (bs : Bytes) : (hexChars bs).length = 2 * bs.length := by
  induction bs with
  | nil => rfl
  | cons b rest ih =>
    show (byteHexChars b ++ hexChars rest).length = 2 * (rest.length + 1)
    rw [List.length_append, ih]
    simp [byteHexChars]
    omega

theorem shortHashChars_length (r : AssetRequest) : (shortHashChars r).length = 8 := by
  simp [shortHashChars, List.length_take, hexChars_length, md5_length]

theorem shortHashChars_eq_of_pack4_eq (r1 r2 : AssetRequest)
    (h : pack4 (md5 (strBytes (idContent r1))) = pack4 (md5 (strBytes (idContent r2)))) :
    shortHashChars r1 = shortHashChars r2 := by
  obtain ⟨a0, a1, a2, a3, ra, hea, ha0, ha1, ha2, ha3⟩ := md5_shape (strBytes (idContent r1))
  obtain ⟨b0, b1, b2, b3, rb, heb, hb0, hb1, hb2, hb3⟩ := md5_shape (strBytes (idContent r2))
  rw [hea, heb, pack4, pack4] at h
  unfold shortHashChars
  rw [hea, heb, hexChars_take_eight, hexChars_take_eight]
  have e0 : a0 = b0 := by omega
  have e1 : a1 = b1 := by omega
  have e2 : a2 = b2 := by omega
  have e3 : a3 = b3 := by omega
  rw [e0, e1, e2, e3]

def promptOfIndex (n : Nat) : String := String.mk (List.replicate n 'a')

def collisionRequest (n : Nat) : AssetRequest :=
  { prompt := promptOfIndex n, type := "2d", category := "sprite" }

/-- C8 counterexample: by pigeonhole over the 8-hex-character (32-bit)
truncation of the MD5 digest, there are two requests that differ only in the
`prompt` field and share a time bucket yet receive the same asset identifier:
truncated-hash identity is not injective in any single field. -/
theorem asset_id_single_field_collision :
    ∃ p1 p2 : String, p1 ≠ p2 ∧
      generateAssetId { prompt := p1, type := "2d", category := "sprite" } 1700000000 =
        generateAssetId { prompt := p2, type := "2d", category := "sprite" } 1700000000 := by
  obtain ⟨i, j, hne, heq⟩ :=
    Fintype.exists_ne_map_eq_of_card_lt
      (fun i : Fin 4294967297 =>
        (⟨pack4 (md5 (strBytes (idContent (collisionRequest i.1)))),
          pack4_md5_lt _⟩ : Fin 4294967296))
      (by simp only [Fintype.card_fin]; omega)
  refine ⟨promptOfIndex i.1, promptOfIndex j.1, ?_, ?_⟩
  · intro hcontra
    apply hne
    apply Fin.ext
    have hlen := congrArg (fun s : String => s.data.length) hcontra
    simpa [promptOfIndex, string_mk_data] using hlen
  · have hsh : shortHashChars (collisionRequest i.1) = shortHashChars (collisionRequest j.1) :=
      shortHashChars_eq_of_pack4_eq _ _ (congrArg Fin.val heq)
    show generateAssetId (collisionRequest i.1) 1700000000 =
      generateAssetId (collisionRequest j.1) 1700000000
    simp only [collisionRequest] at hsh
    simp [generateAssetId, collisionRequest, hsh]

end GenAssets

namespace GenAssets

/-- C8 amended: within one time bucket, identifier derivation is deterministic
in (prompt, type, category, style); a difference in exactly the type field or
exactly the category field forces distinct identifiers (they are embedded
verbatim); a difference in exactly the prompt field or exactly the style field
forces distinct hash inputs (the hashed content strings differ), but the
8-character truncated identifiers themselves may collide (see the pigeonhole
counterexample). -/
theorem asset_id_bucket_determinism (r1 r2 : AssetRequest) (ts : Nat) :
    (r1.prompt = r2.prompt → r1.type = r2.type → r1.category = r2.category →
      r1.style = r2.style → generateAssetId r1 ts = generateAssetId r2 ts) ∧
    (r1.type ≠ r2.type → r1.category = r2.category →
      generateAssetId r1 ts ≠ generateAssetId r2 ts) ∧
    (r1.type = r2.type → r1.category ≠ r2.category →
      generateAssetId r1 ts ≠ generateAssetId r2 ts) ∧
    (r1.prompt ≠ r2.prompt → r1.type = r2.type → r1.category = r2.category →
      r1.style = r2.style → idContent r1 ≠ idContent r2) ∧
    (r1.style ≠ r2.style → r1.prompt = r2.prompt → r1.type = r2.type →
      r1.category = r2.category → idContent r1 ≠ idContent r2) := by
  refine ⟨?_, ?_, ?_, ?_, ?_⟩
  · intro h1 h2 h3 h4
    simp [generateAssetId, shortHashChars, idContent, h1, h2, h3, h4]
  · intro hty hcat hid
    apply hty
    unfold generateAssetId at hid
    have hd := congrArg String.data hid
    simp only [String.data_append, string_mk_data, List.append_assoc] at hd
    rw [hcat] at hd
    exact String.ext (List.append_inj' hd (by simp [List.length_append, shortHashChars_length])).1
  · intro hty hcat hid
    apply hcat
    unfold generateAssetId at hid
    have hd := congrArg String.data hid
    simp only [String.data_append, string_mk_data, List.append_assoc] at hd
    rw [hty] at hd
    have hd2 := List.append_cancel_left hd
    have hd3 := List.append_cancel_left hd2
    exact String.ext (List.append_inj' hd3 (by simp [List.length_append, shortHashChars_length])).1
  · intro hp hty hcat hst hid
    apply hp
    unfold idContent at hid
    have hd := congrArg String.data hid
    simp only [String.data_append, List.append_assoc] at hd
    rw [hty, hcat, hst] at hd
    exact String.ext (List.append_inj' hd rfl).1
  · intro hst hp hty hcat hid
    apply hst
    unfold idContent at hid
    have hd := congrArg String.data hid
    simp only [String.data_append, List.append_assoc] at hd
    rw [hp, hty, hcat] at hd
    have hd2 := List.append_cancel_left hd
    have hd3 := List.append_cancel_left hd2
    have hd4 := List.append_cancel_left hd3
    have hd5 := List.append_cancel_left hd4
    have hd6 := List.append_cancel_left hd5
    have hd7 := List.append_cancel_left hd6
    exact String.ext hd7

end GenAssets

namespace GenAssets

/-- C8 witness: the amended determinism theorem applied at concrete request
pairs, one per conjunct. -/
theorem asset_id_bucket_determinism_witness :
    generateAssetId { prompt := "p", type := "2d", category := "c" } 5 =
      generateAssetId { prompt := "p", type := "2d", category := "c" } 5 ∧
    generateAssetId { prompt := "p", type := "2d", category := "c" } 5 ≠
      generateAssetId { prompt := "p", type := "3d", category := "c" } 5 ∧
    generateAssetId { prompt := "p", type := "2d", category := "c" } 5 ≠
      generateAssetId { prompt := "p", type := "2d", category := "d" } 5 ∧
    idContent { prompt := "p", type := "2d", category := "c" } ≠
      idContent { prompt := "q", type := "2d", category := "c" } ∧
    idContent { prompt := "p", type := "2d", category := "c", style := "s1" } ≠
      idContent { prompt := "p", type := "2d", category := "c", style := "s2" } :=
  ⟨(asset_id_bucket_determinism _ _ 5).1 rfl rfl rfl rfl,
   (asset_id_bucket_determinism _ _ 5).2.1 (by decide) rfl,
   (asset_id_bucket_determinism _ _ 5).2.2.1 rfl (by decide),
   (asset_id_bucket_determinism _ _ 5).2.2.2.1 (by decide) rfl rfl rfl,
   (asset_id_bucket_determinism _ _ 5).2.2.2.2 (by decide) rfl rfl rfl⟩

end GenAssets

namespace GenAssets

/- Service names: the keys of CONFIG['services'] (lines 22-44). -/
inductive Service where
  | nanobanana
  | stability
  | midjourney
  | elevenlabs
deriving DecidableEq, Repr

/-
Log events, one constructor per print statement in the generation path.
`isErrorTrace` marks the per-item failure prints (the "❌ ..." lines and the
provider "API error"/"generation failed"/job-failure/poll-failure lines) as
opposed to progress and not-implemented (skip) notices.
-/
inductive LogEvent where
  | generating (type prompt : String)
  | generated (id : String)
  | failedGenerate (msg : String)
  | apiError (service : Service) (status : Nat)
  | generationFailed (service : Service)
  | jobFailed (jobId : String)
  | pollingError
  | notImplemented3d (prompt : String)
  | notImplementedAudio (prompt : String)
deriving DecidableEq, Repr

def LogEvent.isErrorTrace : LogEvent → Bool
  | .generating _ _ => false
  | .generated _ => false
  | .notImplemented3d _ => false
  | .notImplementedAudio _ => false
  | _ => true

/-
One poll of the Midjourney job endpoint (lines 301-318): either the GET (or
the body parse) raises, or it returns a status code with the job's status
string; when the job is "completed" the nested image GET is described by
`FetchResult` (a non-200 image response falls through and polling continues;
an exception during the fetch is caught by the poll's own handler).
-/
inductive FetchResult where
  | ok (data : Bytes)
  | badStatus (code : Nat)
  | exn
deriving DecidableEq, Repr

inductive PollEvent where
  | exn
  | resp (status : Nat) (jobStatus : String) (fetch : FetchResult)
deriving DecidableEq, Repr

/- A poll event that terminates the loop: HTTP 200 with job status "failed",
or "completed" with a successful image fetch.  Every other event makes the
loop continue. -/
def PollEvent.isTerminal : PollEvent → Bool
  | .exn => false
  | .resp status jobStatus fetch =>
    status == 200 && (jobStatus == "failed" ||
      (jobStatus == "completed" &&
        (match fetch with | .ok _ => true | _ => false)))

/-
`_poll_midjourney_job` (lines 294-320): up to 30 polls (10 s apart; timing
dropped in this outcome model).  `ev` maps the attempt index to its poll
outcome.  Returns the fetched bytes (if any), the number of polls performed,
and the log events.
-/
def pollFrom (ev : Nat → PollEvent) (jobId : String) : Nat → Nat → Option Bytes × Nat × List LogEvent
  | _, 0 => (none, 0, [])
  | i, fuel + 1 =>
    match ev i with
    | .exn =>
      let rest := pollFrom ev jobId (i + 1) fuel
      (rest.1, rest.2.1 + 1, .pollingError :: rest.2.2)
    | .resp status jobStatus fetch =>
      if status = 200 then
        if jobStatus = "completed" then
          match fetch with
          | .ok data => (some data, 1, [])
          | .badStatus _ =>
            let rest := pollFrom ev jobId (i + 1) fuel
            (rest.1, rest.2.1 + 1, rest.2.2)
          | .exn =>
            let rest := pollFrom ev jobId (i + 1) fuel
            (rest.1, rest.2.1 + 1, .pollingError :: rest.2.2)
        else if jobStatus = "failed" then (none, 1, [.jobFailed jobId])
        else
          let rest := pollFrom ev jobId (i + 1) fuel
          (rest.1, rest.2.1 + 1, rest.2.2)
      else
        let rest := pollFrom ev jobId (i + 1) fuel
        (rest.1, rest.2.1 + 1, rest.2.2)

/-
The outbound-call environment: the remote services are opaque (spec section
1), so each call's outcome is supplied here.  A `none` payload stands for a
response body whose parse (missing key or base64 decode) raises inside the
200-branch; the exception is caught by the provider's own try/except.
-/
inductive NetResult (α : Type) where
  | resp (status : Nat) (payload : α)
  | exn
deriving DecidableEq, Repr

structure Env where
  nano : AssetRequest → NetResult (Option Bytes)
  stab : AssetRequest → NetResult (Option (List Bytes))
  mjSubmit : AssetRequest → NetResult (Option String)
  mjPoll : String → Nat → PollEvent

def pollMidjourneyJob (env : Env) (jobId : String) : Option Bytes × Nat × List LogEvent :=
  pollFrom (env.mjPoll jobId) jobId 0 30

/- The wall-clock values observed during one item: the id time bucket, the
`datetime.now().isoformat()` string, and the elapsed generation time. -/
structure Clock where
  timestamp : Nat
  createdAt : String
  elapsed : ℚ
deriving DecidableEq, Repr

/-
Provider clients (lines 172-292).  Each returns the optional asset, the
filesystem after any save, and its log.  The awaited rate limiters (quota 10,
150, 5 and 20 — all positive) only delay execution and cannot change an
outcome, so they are not threaded through this outcome-level model.
-/
def generateWithNanobanana (env : Env) (fs : FileSystem) (clock : Clock) (r : AssetRequest) :
    Option GeneratedAsset × FileSystem × List LogEvent :=
  match env.nano r with
  | .exn => (none, fs, [.generationFailed .nanobanana])
  | .resp status payload =>
    if status = 200 then
      match payload with
      | some data =>
        match saveAsset fs r data "png" "nanobanana" clock.timestamp clock.createdAt with
        | some (fs2, a) => (some a, fs2, [])
        | none => (none, fs, [.generationFailed .nanobanana])
      | none => (none, fs, [.generationFailed .nanobanana])
    else (none, fs, [.apiError .nanobanana status])

def generateWithStability (env : Env) (fs : FileSystem) (clock : Clock) (r : AssetRequest) :
    Option GeneratedAsset × FileSystem × List LogEvent :=
  match env.stab r with
  | .exn => (none, fs, [.generationFailed .stability])
  | .resp status payload =>
    if status = 200 then
      match payload with
      | some [] => (none, fs, [])
      | some (first :: _) =>
        match saveAsset fs r first "png" "stability" clock.timestamp clock.createdAt with
        | some (fs2, a) => (some a, fs2, [])
        | none => (none, fs, [.generationFailed .stability])
      | none => (none, fs, [.generationFailed .stability])
    else (none, fs, [.apiError .stability status])

def generateWithMidjourney (env : Env) (fs : FileSystem) (clock : Clock) (r : AssetRequest) :
    Option GeneratedAsset × FileSystem × List LogEvent :=
  match env.mjSubmit r with
  | .exn => (none, fs, [.generationFailed .midjourney])
  | .resp status payload =>
    if status = 200 then
      match payload with
      | some jobId =>
        let polled := pollMidjourneyJob env jobId
        match polled.1 with
        | some data =>
          -- `if image_data:` (line 284): empty bytes are falsy, so the item
          -- falls through to `return None` without saving.
          if data = [] then (none, fs, polled.2.2)
          else
            match saveAsset fs r data "png" "midjourney" clock.timestamp clock.createdAt with
            | some (fs2, a) => (some a, fs2, polled.2.2)
            | none => (none, fs, polled.2.2 ++ [.generationFailed .midjourney])
        | none => (none, fs, polled.2.2)
      | none => (none, fs, [.generationFailed .midjourney])
    else (none, fs, [.apiError .midjourney status])

/-
`_generate_2d_asset` (lines 159-170): pick the service from the category and
dispatch.  The membership tests mirror `request.category in [...]`.
-/
def selectProvider2d (category : String) : Service :=
  if category ∈ (["sprite", "character"] : List String) then .nanobanana
  else if category ∈ (["background", "environment"] : List String) then .stability
  else if category ∈ (["ui", "icon"] : List String) then .midjourney
  else .stability

def generate2dAsset (env : Env) (fs : FileSystem) (clock : Clock) (r : AssetRequest) :
    Option GeneratedAsset × FileSystem × List LogEvent :=
  match selectProvider2d r.category with
  | .nanobanana => generateWithNanobanana env fs clock r
  | .stability => generateWithStability env fs clock r
  | .midjourney => generateWithMidjourney env fs clock r
  | .elevenlabs => generateWithStability env fs clock r

/- `_generate_3d_asset` (lines 322-331): placeholder, prints 🚧 and returns
None. -/
def generate3dAsset (fs : FileSystem) (r : AssetRequest) :
    Option GeneratedAsset × FileSystem × List LogEvent :=
  (none, fs, [.notImplemented3d r.prompt])

/- `_generate_audio_asset` (lines 333-362): awaits the elevenlabs limiter
(delay only), builds an unused payload, prints 🚧 and returns None. -/
def generateAudioAsset (fs : FileSystem) (r : AssetRequest) :
    Option GeneratedAsset × FileSystem × List LogEvent :=
  (none, fs, [.notImplementedAudio r.prompt])

def PyError.message : PyError → String
  | .indexError => "list index out of range"
  | .valueError m => m
  | .typeError m => m

/-
`generate_single_asset` (lines 132-157), body of the try block: print the 🔄
line, dispatch on type (an unknown type raises ValueError), and on a produced
asset set generation_time (the code mutates the dataclass before returning,
modeled functionally) and print the ✅ line.
-/
def generateSingleBody (env : Env) (fs : FileSystem) (clock : Clock) (r : AssetRequest) :
    Except PyError (Option GeneratedAsset × FileSystem × List LogEvent) :=
  let startLog := LogEvent.generating r.type r.prompt
  if r.type = "2d" then
    let (res, fs2, log) := generate2dAsset env fs clock r
    match res with
    | some a =>
      let a2 := { a with generation_time := clock.elapsed }
      .ok (some a2, fs2, startLog :: log ++ [.generated a2.id])
    | none => .ok (none, fs2, startLog :: log)
  else if r.type = "3d" then
    let (res, fs2, log) := generate3dAsset fs r
    match res with
    | some a =>
      let a2 := { a with generation_time := clock.elapsed }
      .ok (some a2, fs2, startLog :: log ++ [.generated a2.id])
    | none => .ok (none, fs2, startLog :: log)
  else if r.type = "audio" then
    let (res, fs2, log) := generateAudioAsset fs r
    match res with
    | some a =>
      let a2 := { a with generation_time := clock.elapsed }
      .ok (some a2, fs2, startLog :: log ++ [.generated a2.id])
    | none => .ok (none, fs2, startLog :: log)
  else .error (.valueError ("Unknown asset type: " ++ r.type))

/-
The surrounding `try/except Exception` of `generate_single_asset` converts
any raised error into the "❌ Failed to generate asset" print and a None
result.  The only raise reachable in the body is the unknown-type ValueError,
thrown before any filesystem write, so the filesystem is unchanged there.
-/
def generateSingleAsset (env : Env) (fs : FileSystem) (clock : Clock) (r : AssetRequest) :
    Option GeneratedAsset × FileSystem × List LogEvent :=
  match generateSingleBody env fs clock r with
  | .ok out => out
  | .error e => (none, fs, [.generating r.type r.prompt, .failedGenerate e.message])

/-
`generate_asset_batch` (lines 111-130): one task per request; gather keeps
input order.  Since `generate_single_asset` catches every exception, no
gathered result is an Exception, so the `isinstance(result, Exception)`
filter removes nothing: every per-item result — including the `None`s from
failures and skips — is appended to `successful_assets`.  The concurrent
interleaving is modeled as sequential threading of the shared filesystem;
item outcomes do not depend on it.
-/
def generateAssetBatch (env : Env) (clock : Clock) :
    FileSystem → List AssetRequest → List (Option GeneratedAsset) × FileSystem × List LogEvent
  | fs, [] => ([], fs, [])
  | fs, r :: rest =>
    let (res, fs2, log) := generateSingleAsset env fs clock r
    let (results, fs3, logs) := generateAssetBatch env clock fs2 rest
    (res :: results, fs3, log ++ logs)

structure GenerationSession where
  timestamp : String
  total_assets : Nat
  successful_generations : Nat
deriving DecidableEq, Repr

structure GenerationReport where
  generation_session : GenerationSession
  assets : List GeneratedAsset
deriving DecidableEq, Repr

/-
`save_generation_report` (lines 423-437) over the generator's accumulated
`generated_assets` (the batch results, None entries included): total_assets
counts every entry; successful_generations and the assets list keep only the
non-None ones.
-/
def saveGenerationReport (generated : List (Option GeneratedAsset)) (ts : String) :
    GenerationReport :=
  { generation_session :=
      { timestamp := ts, total_assets := generated.length,
        successful_generations := (generated.filter Option.isSome).length },
    assets := generated.filterMap id }

/-
A configuration item from the JSON `assets` array.  Field values are typed as
AssetRequest expects (the claims only involve well-typed values); `extraKeys`
holds names that match no AssetRequest parameter, which make
`AssetRequest(**item)` raise TypeError, as does an absent required field.
-/
structure ConfigItem where
  prompt : Option String := none
  type : Option String := none
  category : Option String := none
  style : Option String := none
  width : Option Int := none
  height : Option Int := none
  duration : Option ℚ := none
  quality : Option ℚ := none
  tags : Option (List String) := none
  metadata : Option (List (String × String)) := none
  extraKeys : List String := []
deriving DecidableEq, Repr

def mkAssetRequest (item : ConfigItem) : Except PyError AssetRequest :=
  match item.extraKeys with
  | k :: _ => .error (.typeError ("unexpected keyword argument " ++ k))
  | [] =>
    match item.prompt, item.type, item.category with
    | some p, some t, some c =>
      .ok { prompt := p, type := t, category := c,
            style := item.style.getD "cyberpunk",
            width := item.width.getD 512, height := item.height.getD 512,
            duration := item.duration.getD 2, quality := item.quality.getD (8/10),
            tags := item.tags.getD [], metadata := item.metadata.getD [] }
    | _, _, _ => .error (.typeError "missing required argument")

/-
`load_asset_requests` (lines 459-474): construct the requests one by one in a
loop; the first construction error aborts the loop (`buildRequests`), and the
`except` around the whole loop then makes the function return [], discarding
every other item.
-/
def buildRequests : List ConfigItem → Except PyError (List AssetRequest)
  | [] => .ok []
  | item :: rest =>
    match mkAssetRequest item with
    | .error e => .error e
    | .ok r =>
      match buildRequests rest with
      | .error e => .error e
      | .ok rs => .ok (r :: rs)

def loadAssetRequests (items : List ConfigItem) : List AssetRequest :=
  match buildRequests items with
  | .ok requests => requests
  | .error _ => []

/-
`main` (lines 476-515): exit status 1 when the config file is missing or when
no valid requests load; otherwise the run finishes normally (exit 0) whatever
the per-item outcomes.
-/
def mainExitCode (configExists : Bool) (items : List ConfigItem) : Nat :=
  if !configExists then 1
  else if loadAssetRequests items = [] then 1
  else 0

end GenAssets

namespace GenAssets

theorem buildRequests_error_of_mem (items : List ConfigItem) (item : ConfigItem) (e : PyError)
    (hmem : item ∈ items) (hbad : mkAssetRequest item = .error e) :
    ∃ e2, buildRequests items = .error e2 := by
  induction items with
  | nil => cases hmem
  | cons hd tl ih =>
    rcases List.mem_cons.mp hmem with rfl | htl
    · exact ⟨e, by simp [buildRequests, hbad]⟩
    · obtain ⟨e2, he2⟩ := ih htl
      cases hfd : mkAssetRequest hd with
      | error e3 => exact ⟨e3, by simp [buildRequests, hfd]⟩
      | ok r => exact ⟨e2, by simp [buildRequests, hfd, he2]⟩

/-- C10: if any single item of the configuration's assets array fails
AssetRequest construction (for example it has an unexpected field name),
loading returns the empty list — every other valid item in the same file is
discarded — and the process exits with status 1 exactly as if no requests
existed. -/
theorem bad_item_discards_whole_load (items : List ConfigItem) (item : ConfigItem) (e : PyError)
    (hmem : item ∈ items) (hbad : mkAssetRequest item = .error e) :
    loadAssetRequests items = [] ∧ mainExitCode true items = 1 := by
  obtain ⟨e2, he2⟩ := buildRequests_error_of_mem items item e hmem hbad
  have hload : loadAssetRequests items = [] := by
    unfold loadAssetRequests
    rw [he2]
  exact ⟨hload, by simp [mainExitCode, hload]⟩

/- Concrete config items for the loader claims: a valid item and one with an
unexpected field name. -/
def goodItem : ConfigItem :=
  { prompt := some "hero sprite", type := some "2d", category := some "sprite" }

def badItem : ConfigItem :=
  { prompt := some "boss sprite", type := some "2d", category := some "sprite",
    extraKeys := ["colour"] }

/-- C10 witness: a two-item config whose second item has an unexpected field
name discards the valid first item and exits 1. -/
theorem bad_item_discards_whole_load_witness :
    badItem ∈ [goodItem, badItem] ∧
    mkAssetRequest badItem = .error (.typeError "unexpected keyword argument colour") ∧
    loadAssetRequests [goodItem, badItem] = [] ∧
    mainExitCode true [goodItem, badItem] = 1 := by
  have h := bad_item_discards_whole_load [goodItem, badItem] badItem
    (.typeError "unexpected keyword argument colour") (by decide) rfl
  exact ⟨by decide, rfl, h.1, h.2⟩

end GenAssets

namespace GenAssets

/- A config item and request with a type outside the three recognized kinds. -/
def unknownTypeItem : ConfigItem :=
  { prompt := some "x", type := some "video", category := some "clip" }

def unknownTypeRequest : AssetRequest :=
  { prompt := "x", type := "video", category := "clip" }

/- A trivial environment and clock for closed evaluations. -/
def env0 : Env :=
  { nano := fun _ => .exn, stab := fun _ => .exn,
    mjSubmit := fun _ => .exn, mjPoll := fun _ _ => .exn }

def clock0 : Clock := { timestamp := 0, createdAt := "t0", elapsed := 0 }

/-- C4 counterexample: an item whose type is the unrecognized "video" is NOT
rejected when the configuration is loaded — it loads into an ordinary
request — and the unrecognized-type error then occurs at generation time
(`ValueError: Unknown asset type`, raised inside `generate_single_asset`). -/
theorem unrecognized_type_loads_fails_late :
    loadAssetRequests [unknownTypeItem] = [unknownTypeRequest] ∧
    generateSingleBody env0 [] clock0 unknownTypeRequest =
      .error (.valueError "Unknown asset type: video") := by
  exact ⟨rfl, rfl⟩

/-- C4 amended: load-time construction never inspects the type value — an
item with only recognized field names and the required fields present loads
successfully whatever its type string — and a request with an unrecognized
type raises ValueError at generation time, where the item boundary converts
it into a logged per-item failure (an error trace, no asset, the filesystem
untouched). -/
theorem unrecognized_type_is_generation_error (p t c : String) (env : Env) (fs : FileSystem)
    (clock : Clock) (r : AssetRequest)
    (hr : r.type = t)
    (ht : t ∉ (["2d", "3d", "audio"] : List String)) :
    (mkAssetRequest { prompt := some p, type := some t, category := some c }).isOk = true ∧
    generateSingleBody env fs clock r = .error (.valueError ("Unknown asset type: " ++ t)) ∧
    generateSingleAsset env fs clock r =
      (none, fs, [.generating t r.prompt, .failedGenerate ("Unknown asset type: " ++ t)]) := by
  simp only [List.mem_cons, List.not_mem_nil, or_false, not_or] at ht
  obtain ⟨h2d, h3d, haud⟩ := ht
  refine ⟨rfl, ?_, ?_⟩
  · simp [generateSingleBody, hr, h2d, h3d, haud]
  · simp [generateSingleAsset, generateSingleBody, PyError.message, hr, h2d, h3d, haud]

/-- C4 witness: the amended theorem applied to the concrete "video" request. -/
theorem unrecognized_type_is_generation_error_witness :
    (mkAssetRequest
        { prompt := some "x", type := some "video", category := some "clip" }).isOk = true ∧
    generateSingleBody env0 [] clock0 unknownTypeRequest =
      .error (.valueError "Unknown asset type: video") ∧
    generateSingleAsset env0 [] clock0 unknownTypeRequest =
      (none, [], [.generating "video" "x", .failedGenerate "Unknown asset type: video"]) :=
  unrecognized_type_is_generation_error "x" "video" "clip" env0 [] clock0
    unknownTypeRequest rfl (by decide)

end GenAssets

namespace GenAssets

/-
The routing policy of spec section 4.2 written as data: a table from category
sets to providers with a documented fallback, to be compared with the code's
branching in `_generate_2d_asset`.
-/
def routingTable : List (List String × Service) :=
  [(["sprite", "character"], .nanobanana),
   (["background", "environment"], .stability),
   (["ui", "icon"], .midjourney)]

def selectProviderSpec (category : String) : Service :=
  match routingTable.find? (fun row => decide (category ∈ row.1)) with
  | some row => row.2
  | none => .stability

/-- C5: the code's provider choice for image-type (2d) requests agrees with
the spec's routing table on every category — sprite/character to nanobanana,
background/environment to stability, ui/icon to midjourney, anything else to
the stability fallback — and is a function of the category alone, hence
deterministic in (type, category). -/
theorem routing_matches_spec_table :
    ∀ category : String, selectProvider2d category = selectProviderSpec category := by
  intro c
  by_cases h1 : c ∈ (["sprite", "character"] : List String) <;>
    by_cases h2 : c ∈ (["background", "environment"] : List String) <;>
      by_cases h3 : c ∈ (["ui", "icon"] : List String) <;>
        simp [selectProvider2d, selectProviderSpec, routingTable, List.find?, h1, h2, h3]

end GenAssets

namespace GenAssets

theorem pollFrom_skip (ev : Nat → PollEvent) (jobId : String) (i fuel : Nat)
    (h : (ev i).isTerminal = false) :
    (pollFrom ev jobId i (fuel + 1)).1 = (pollFrom ev jobId (i + 1) fuel).1 ∧
    (pollFrom ev jobId i (fuel + 1)).2.1 = (pollFrom ev jobId (i + 1) fuel).2.1 + 1 := by
  cases hev : ev i with
  | exn => simp [pollFrom, hev]
  | resp status jobStatus fetch =>
    rw [hev] at h
    simp only [PollEvent.isTerminal, Bool.and_eq_false_iff, Bool.or_eq_false_iff,
      beq_eq_false_iff_ne, ne_eq] at h
    by_cases h200 : status = 200
    · by_cases hcomp : jobStatus = "completed"
      · cases fetch with
        | ok d => simp [h200, hcomp] at h
        | badStatus code => simp [pollFrom, hev, h200, hcomp]
        | exn => simp [pollFrom, hev, h200, hcomp]
      · by_cases hfail : jobStatus = "failed"
        · simp [h200, hfail] at h
        · simp [pollFrom, hev, h200, hcomp, hfail]
    · simp [pollFrom, hev, h200]

theorem pollFrom_failed_at (ev : Nat → PollEvent) (jobId : String) :
    ∀ (k s fuel : Nat) (fetch : FetchResult), k < fuel →
      (∀ j, j < k → (ev (s + j)).isTerminal = false) →
      ev (s + k) = .resp 200 "failed" fetch →
      (pollFrom ev jobId s fuel).1 = none ∧ (pollFrom ev jobId s fuel).2.1 = k + 1 := by
  intro k
  induction k with
  | zero =>
    intro s fuel fetch hlt _hpre hev
    cases fuel with
    | zero => omega
    | succ f =>
      rw [Nat.add_zero] at hev
      have hne : ("failed" : String) ≠ "completed" := by decide
      simp [pollFrom, hev, hne]
  | succ k ih =>
    intro s fuel fetch hlt hpre hev
    cases fuel with
    | zero => omega
    | succ f =>
      have hs : (ev s).isTerminal = false := by
        have := hpre 0 (by omega)
        simpa using this
      have hskip := pollFrom_skip ev jobId s f hs
      have harg : s + 1 + k = s + (k + 1) := by omega
      have hrec := ih (s + 1) f fetch (by omega)
        (fun j hj => by
          have := hpre (j + 1) (by omega)
          have harg2 : s + 1 + j = s + (j + 1) := by omega
          rw [harg2]
          exact this)
        (by rw [harg]; exact hev)
      exact ⟨hskip.1.trans hrec.1, by rw [hskip.2, hrec.2]⟩

theorem pollFrom_completed_at (ev : Nat → PollEvent) (jobId : String) :
    ∀ (k s fuel : Nat) (data : Bytes), k < fuel →
      (∀ j, j < k → (ev (s + j)).isTerminal = false) →
      ev (s + k) = .resp 200 "completed" (.ok data) →
      (pollFrom ev jobId s fuel).1 = some data ∧ (pollFrom ev jobId s fuel).2.1 = k + 1 := by
  intro k
  induction k with
  | zero =>
    intro s fuel data hlt _hpre hev
    cases fuel with
    | zero => omega
    | succ f =>
      rw [Nat.add_zero] at hev
      simp [pollFrom, hev]
  | succ k ih =>
    intro s fuel data hlt hpre hev
    cases fuel with
    | zero => omega
    | succ f =>
      have hs : (ev s).isTerminal = false := by
        have := hpre 0 (by omega)
        simpa using this
      have hskip := pollFrom_skip ev jobId s f hs
      have harg : s + 1 + k = s + (k + 1) := by omega
      have hrec := ih (s + 1) f data (by omega)
        (fun j hj => by
          have := hpre (j + 1) (by omega)
          have harg2 : s + 1 + j = s + (j + 1) := by omega
          rw [harg2]
          exact this)
        (by rw [harg]; exact hev)
      exact ⟨hskip.1.trans hrec.1, by rw [hskip.2, hrec.2]⟩

theorem pollFrom_timeout (ev : Nat → PollEvent) (jobId : String) :
    ∀ (fuel s : Nat),
      (∀ j, j < fuel → (ev (s + j)).isTerminal = false) →
      (pollFrom ev jobId s fuel).1 = none ∧ (pollFrom ev jobId s fuel).2.1 = fuel := by
  intro fuel
  induction fuel with
  | zero =>
    intro s _hpre
    exact ⟨rfl, rfl⟩
  | succ f ih =>
    intro s hpre
    have hs : (ev s).isTerminal = false := by
      have := hpre 0 (by omega)
      simpa using this
    have hskip := pollFrom_skip ev jobId s f hs
    have hrec := ih (s + 1)
      (fun j hj => by
        have := hpre (j + 1) (by omega)
        have harg : s + 1 + j = s + (j + 1) := by omega
        rw [harg]
        exact this)
    exact ⟨hskip.1.trans hrec.1, by rw [hskip.2, hrec.2]⟩

end GenAssets

namespace GenAssets

/-- C6: in the Midjourney poll loop — with the poll outcomes indexed by
attempt — a poll answering status "failed" after any run of non-terminating
polls ends the loop at once with a Failure (no bytes) after exactly that many
polls, settled by poll count; a poll answering "completed" whose result fetch
succeeds returns exactly the fetched bytes; any non-terminating poll outcome
(non-200, other statuses, a failed result fetch, or an exception) just moves
on to the next poll; and 30 non-terminating polls exhaust the budget with a
Failure after exactly 30 polls. -/
theorem midjourney_poll_loop_contract (env : Env) (jobId : String) :
    (∀ i fetch, i < 30 →
      (∀ j, j < i → (env.mjPoll jobId j).isTerminal = false) →
      env.mjPoll jobId i = .resp 200 "failed" fetch →
      (pollMidjourneyJob env jobId).1 = none ∧ (pollMidjourneyJob env jobId).2.1 = i + 1) ∧
    (∀ i data, i < 30 →
      (∀ j, j < i → (env.mjPoll jobId j).isTerminal = false) →
      env.mjPoll jobId i = .resp 200 "completed" (.ok data) →
      (pollMidjourneyJob env jobId).1 = some data ∧
        (pollMidjourneyJob env jobId).2.1 = i + 1) ∧
    (∀ i fuel, (env.mjPoll jobId i).isTerminal = false →
      (pollFrom (env.mjPoll jobId) jobId i (fuel + 1)).1 =
        (pollFrom (env.mjPoll jobId) jobId (i + 1) fuel).1 ∧
      (pollFrom (env.mjPoll jobId) jobId i (fuel + 1)).2.1 =
        (pollFrom (env.mjPoll jobId) jobId (i + 1) fuel).2.1 + 1) ∧
    ((∀ j, j < 30 → (env.mjPoll jobId j).isTerminal = false) →
      (pollMidjourneyJob env jobId).1 = none ∧ (pollMidjourneyJob env jobId).2.1 = 30) := by
  refine ⟨?_, ?_, ?_, ?_⟩
  · intro i fetch hlt hpre hev
    exact pollFrom_failed_at (env.mjPoll jobId) jobId i 0 30 fetch hlt
      (fun j hj => by simpa using hpre j hj) (by simpa using hev)
  · intro i data hlt hpre hev
    exact pollFrom_completed_at (env.mjPoll jobId) jobId i 0 30 data hlt
      (fun j hj => by simpa using hpre j hj) (by simpa using hev)
  · intro i fuel h
    exact pollFrom_skip (env.mjPoll jobId) jobId i fuel h
  · intro hpre
    exact pollFrom_timeout (env.mjPoll jobId) jobId 30 0
      (fun j hj => by simpa using hpre j hj)

/- Stub poll environments for the witness: always-failed, completed-first,
and always-in-progress. -/
def envPollFailed : Env :=
  { env0 with mjPoll := fun _ _ => .resp 200 "failed" .exn }

def envPollDone : Env :=
  { env0 with mjPoll := fun _ _ => .resp 200 "completed" (.ok [3, 1, 4]) }

def envPollBusy : Env :=
  { env0 with mjPoll := fun _ _ => .resp 200 "in_progress" .exn }

/-- C6 witness: the poll-loop contract applied to concrete stub environments:
failed on the first poll gives a Failure after exactly 1 of the 30 polls;
completed on the first poll returns the fetched bytes; an always-in-progress
job times out after exactly 30 polls. -/
theorem midjourney_poll_loop_contract_witness :
    ((pollMidjourneyJob envPollFailed "j").1 = none ∧
      (pollMidjourneyJob envPollFailed "j").2.1 = 0 + 1) ∧
    ((pollMidjourneyJob envPollDone "j").1 = some [3, 1, 4] ∧
      (pollMidjourneyJob envPollDone "j").2.1 = 0 + 1) ∧
    ((pollMidjourneyJob envPollBusy "j").1 = none ∧
      (pollMidjourneyJob envPollBusy "j").2.1 = 30) :=
  ⟨(midjourney_poll_loop_contract envPollFailed "j").1 0 .exn (by omega)
      (fun j hj => absurd hj (by omega)) rfl,
    (midjourney_poll_loop_contract envPollDone "j").2.1 0 [3, 1, 4] (by omega)
      (fun j hj => absurd hj (by omega)) rfl,
    (midjourney_poll_loop_contract envPollBusy "j").2.2.2 (fun j _ => rfl)⟩

end GenAssets

namespace GenAssets

/-- C3: a request whose type has no implemented provider (3d/volumetric or
audio) is a skip distinct from a failure: its body completes without raising
(no fatal error), produces no GeneratedAsset, logs only the progress line and
the 🚧 not-implemented notice (no error trace), leaves the filesystem
untouched, contributes only a None placeholder to the batch results, and adds
nothing to the report's successful count or successful-asset list. -/
theorem unsupported_type_is_skip (env : Env) (fs : FileSystem) (clock : Clock) (ts : String)
    (r : AssetRequest) (hty : r.type = "3d" ∨ r.type = "audio") :
    generateSingleBody env fs clock r =
      .ok (none, fs, [.generating r.type r.prompt,
        if r.type = "3d" then .notImplemented3d r.prompt else .notImplementedAudio r.prompt]) ∧
    generateSingleAsset env fs clock r =
      (none, fs, [.generating r.type r.prompt,
        if r.type = "3d" then .notImplemented3d r.prompt else .notImplementedAudio r.prompt]) ∧
    (LogEvent.generating r.type r.prompt).isErrorTrace = false ∧
    (if r.type = "3d" then LogEvent.notImplemented3d r.prompt
      else LogEvent.notImplementedAudio r.prompt).isErrorTrace = false ∧
    (∀ rest, (generateAssetBatch env clock fs (r :: rest)).1 =
      none :: (generateAssetBatch env clock fs rest).1) ∧
    (∀ results : List (Option GeneratedAsset),
      (saveGenerationReport (none :: results) ts).assets =
        (saveGenerationReport results ts).assets ∧
      (saveGenerationReport (none :: results) ts).generation_session.successful_generations =
        (saveGenerationReport results ts).generation_session.successful_generations) := by
  have hbody : generateSingleBody env fs clock r =
      .ok (none, fs, [.generating r.type r.prompt,
        if r.type = "3d" then .notImplemented3d r.prompt
        else .notImplementedAudio r.prompt]) := by
    rcases hty with h | h <;>
      simp [generateSingleBody, generate3dAsset, generateAudioAsset, h]
  have hsingle : generateSingleAsset env fs clock r =
      (none, fs, [.generating r.type r.prompt,
        if r.type = "3d" then .notImplemented3d r.prompt
        else .notImplementedAudio r.prompt]) := by
    simp [generateSingleAsset, hbody]
  refine ⟨hbody, hsingle, rfl, ?_, ?_, ?_⟩
  · rcases hty with h | h <;> simp [h, LogEvent.isErrorTrace]
  · intro rest
    simp [generateAssetBatch, hsingle]
  · intro results
    constructor <;> simp [saveGenerationReport]

/- The spec's concrete audio scenario request. -/
def audioRequest : AssetRequest :=
  { prompt := "laser zap", type := "audio", category := "sfx" }

/-- C3 witness: the skip theorem applied to the concrete audio request. -/
theorem unsupported_type_is_skip_witness :
    generateSingleAsset env0 [] clock0 audioRequest =
      (none, [], [.generating "audio" "laser zap", .notImplementedAudio "laser zap"]) ∧
    (generateAssetBatch env0 clock0 [] [audioRequest]).1 =
      none :: (generateAssetBatch env0 clock0 [] []).1 ∧
    (saveGenerationReport [none] "ts").generation_session.successful_generations =
      (saveGenerationReport [] "ts").generation_session.successful_generations := by
  have h := unsupported_type_is_skip env0 [] clock0 "ts" audioRequest (Or.inr rfl)
  exact ⟨h.2.1, h.2.2.2.2.1 [], (h.2.2.2.2.2 []).2⟩

end GenAssets

namespace GenAssets

/-
Outcome classification of a request under an environment, read off the
provider branching: a 2d request is delivered exactly when its selected
provider's calls produce bytes (200 with a usable payload, and for
midjourney a poll that returns nonempty bytes — empty fetched bytes fail the
`if image_data:` truthiness check); otherwise it fails; 3d and audio
requests are the unsupported skips.
-/
def provClientDelivers (env : Env) (r : AssetRequest) : Bool :=
  match selectProvider2d r.category with
  | .nanobanana =>
    match env.nano r with
    | .resp status payload => status == 200 && payload.isSome
    | .exn => false
  | .stability =>
    match env.stab r with
    | .resp status payload =>
      status == 200 && (match payload with | some (_ :: _) => true | _ => false)
    | .exn => false
  | .midjourney =>
    match env.mjSubmit r with
    | .resp status payload =>
      status == 200 &&
        (match payload with
         | some jobId =>
           (match (pollMidjourneyJob env jobId).1 with
            | some (_ :: _) => true
            | _ => false)
         | none => false)
    | .exn => false
  | .elevenlabs => false

def isDelivered (env : Env) (r : AssetRequest) : Bool :=
  r.type == "2d" && provClientDelivers env r

def isFailing (env : Env) (r : AssetRequest) : Bool :=
  r.type == "2d" && !provClientDelivers env r

def isUnsupported (r : AssetRequest) : Bool :=
  r.type == "3d" || r.type == "audio"

theorem saveAsset_2d_some (fs : FileSystem) (r : AssetRequest) (data : Bytes)
    (format service : String) (ts : Nat) (ca : String) (h2 : r.type = "2d") :
    ∃ fs2 a, saveAsset fs r data format service ts ca = some (fs2, a) := by
  unfold saveAsset
  rw [h2]
  exact ⟨_, _, rfl⟩

theorem generate2d_isSome (env : Env) (fs : FileSystem) (clock : Clock) (r : AssetRequest)
    (h2 : r.type = "2d") :
    ((generate2dAsset env fs clock r).1).isSome = provClientDelivers env r := by
  unfold generate2dAsset provClientDelivers
  cases hsel : selectProvider2d r.category with
  | nanobanana =>
    unfold generateWithNanobanana
    cases hn : env.nano r with
    | exn => simp
    | resp status payload =>
      by_cases h200 : status = 200
      · cases payload with
        | none => simp [h200]
        | some data =>
          obtain ⟨fs2, a, hsave⟩ :=
            saveAsset_2d_some fs r data "png" "nanobanana" clock.timestamp clock.createdAt h2
          simp [h200, hsave]
      · simp [h200]
  | stability =>
    unfold generateWithStability
    cases hn : env.stab r with
    | exn => simp
    | resp status payload =>
      by_cases h200 : status = 200
      · match payload with
        | none => simp [h200]
        | some [] => simp [h200]
        | some (first :: more) =>
          obtain ⟨fs2, a, hsave⟩ :=
            saveAsset_2d_some fs r first "png" "stability" clock.timestamp clock.createdAt h2
          simp [h200, hsave]
      · simp [h200]
  | midjourney =>
    unfold generateWithMidjourney
    cases hn : env.mjSubmit r with
    | exn => simp
    | resp status payload =>
      by_cases h200 : status = 200
      · match payload with
        | none => simp [h200]
        | some jobId =>
          match hpoll : (pollMidjourneyJob env jobId).1 with
          | none => simp [h200, hpoll]
          | some [] => simp [h200, hpoll]
          | some (b :: bs) =>
            obtain ⟨fs2, a, hsave⟩ :=
              saveAsset_2d_some fs r (b :: bs) "png" "midjourney" clock.timestamp
                clock.createdAt h2
            simp [h200, hpoll, hsave]
      · simp [h200]
  | elevenlabs =>
    exfalso
    revert hsel
    unfold selectProvider2d
    split_ifs <;> simp

theorem generateSingle_isSome (env : Env) (fs : FileSystem) (clock : Clock) (r : AssetRequest)
    (hty : r.type = "2d" ∨ r.type = "3d" ∨ r.type = "audio") :
    ((generateSingleAsset env fs clock r).1).isSome = isDelivered env r := by
  rcases hty with h | h | h
  · have h2d := generate2d_isSome env fs clock r h
    rcases hgen : generate2dAsset env fs clock r with ⟨res, fs2, log⟩
    rw [hgen] at h2d
    cases res with
    | some a => simp [generateSingleAsset, generateSingleBody, h, hgen, isDelivered, ← h2d]
    | none => simp [generateSingleAsset, generateSingleBody, h, hgen, isDelivered, ← h2d]
  · simp [generateSingleAsset, generateSingleBody, generate3dAsset, isDelivered, h]
  · simp [generateSingleAsset, generateSingleBody, generateAudioAsset, isDelivered, h]

end GenAssets

namespace GenAssets

theorem batch_length (env : Env) (clock : Clock) (fs : FileSystem) (reqs : List AssetRequest) :
    ((generateAssetBatch env clock fs reqs).1).length = reqs.length := by
  induction reqs generalizing fs with
  | nil => rfl
  | cons r rest ih =>
    rcases hsing : generateSingleAsset env fs clock r with ⟨res, fs2, log⟩
    simp [generateAssetBatch, hsing, ih fs2]

theorem batch_someCount (env : Env) (clock : Clock) (reqs : List AssetRequest)
    (hty : ∀ r ∈ reqs, r.type = "2d" ∨ r.type = "3d" ∨ r.type = "audio") :
    ∀ fs, (((generateAssetBatch env clock fs reqs).1).filter Option.isSome).length =
      reqs.countP (fun r => isDelivered env r) := by
  induction reqs with
  | nil => intro fs; rfl
  | cons r rest ih =>
    intro fs
    have hr := hty r (by simp)
    have hrest := fun x hx => hty x (List.mem_cons_of_mem r hx)
    have hiso := generateSingle_isSome env fs clock r hr
    rcases hsing : generateSingleAsset env fs clock r with ⟨res, fs2, log⟩
    rw [hsing] at hiso
    cases res with
    | some a =>
      simp only [Option.isSome_some] at hiso
      simp [generateAssetBatch, hsing, List.countP_cons, ← hiso, ih hrest fs2]
    | none =>
      simp only [Option.isSome_none] at hiso
      simp [generateAssetBatch, hsing, List.countP_cons, ← hiso, ih hrest fs2]

theorem counts_partition (env : Env) (reqs : List AssetRequest)
    (hty : ∀ r ∈ reqs, r.type = "2d" ∨ r.type = "3d" ∨ r.type = "audio") :
    reqs.countP (fun r => isDelivered env r) + reqs.countP (fun r => isFailing env r) +
      reqs.countP (fun r => isUnsupported r) = reqs.length := by
  induction reqs with
  | nil => rfl
  | cons r rest ih =>
    have hr := hty r (by simp)
    have ihh := ih (fun x hx => hty x (List.mem_cons_of_mem r hx))
    simp only [List.countP_cons, List.length_cons]
    have hone : (if isDelivered env r then 1 else 0) + (if isFailing env r then 1 else 0) +
        (if isUnsupported r then 1 else 0) = 1 := by
      rcases hr with h | h | h <;>
        cases hpc : provClientDelivers env r <;>
          simp [isDelivered, isFailing, isUnsupported, h, hpc]
    omega

end GenAssets

namespace GenAssets

/-- C2 amended: for a batch of N requests of recognized types in which K are
2d items whose provider fails and M have an unsupported (3d/audio) type, the
sequence returned by `generate_asset_batch` has N entries — the failures and
skips contribute None placeholders, because the gather filter only removes
Exception results and `generate_single_asset` never lets one escape — of
which exactly N − K − M are assets; the session report counts N − K − M
successful generations out of a total of N. -/
theorem batch_counts (env : Env) (clock : Clock) (fs : FileSystem) (ts : String)
    (reqs : List AssetRequest)
    (hty : ∀ r ∈ reqs, r.type = "2d" ∨ r.type = "3d" ∨ r.type = "audio") :
    ((generateAssetBatch env clock fs reqs).1).length = reqs.length ∧
    (((generateAssetBatch env clock fs reqs).1).filter Option.isSome).length =
      reqs.length - reqs.countP (fun r => isFailing env r) -
        reqs.countP (fun r => isUnsupported r) ∧
    (saveGenerationReport ((generateAssetBatch env clock fs reqs).1)
        ts).generation_session.successful_generations =
      reqs.length - reqs.countP (fun r => isFailing env r) -
        reqs.countP (fun r => isUnsupported r) ∧
    (saveGenerationReport ((generateAssetBatch env clock fs reqs).1)
        ts).generation_session.total_assets = reqs.length := by
  have hlen := batch_length env clock fs reqs
  have hsome := batch_someCount env clock reqs hty fs
  have hpart := counts_partition env reqs hty
  have hnkm : reqs.countP (fun r => isDelivered env r) =
      reqs.length - reqs.countP (fun r => isFailing env r) -
        reqs.countP (fun r => isUnsupported r) := by omega
  refine ⟨hlen, ?_, ?_, ?_⟩
  · rw [hsome, hnkm]
  · simp only [saveGenerationReport]
    rw [hsome, hnkm]
  · simp only [saveGenerationReport]
    rw [hlen]

/- Concrete three-request batch: one 2d item on an always-failing provider,
one unsupported audio item, one 2d item on a succeeding provider. -/
def reqFailing : AssetRequest := { prompt := "f", type := "2d", category := "sprite" }

def reqSkipped : AssetRequest := { prompt := "s", type := "audio", category := "sfx" }

def reqDelivered : AssetRequest := { prompt := "neon alley", type := "2d", category := "background" }

def envC2 : Env :=
  { nano := fun _ => .resp 500 none,
    stab := fun _ => .resp 200 (some [[1, 2]]),
    mjSubmit := fun _ => .exn,
    mjPoll := fun _ _ => .exn }

set_option maxRecDepth 40000 in
/-- C2 counterexample: with N = 3 requests of which K = 1 hits an
always-failing provider and M = 1 is unsupported, the sequence returned by
the batch has 3 elements (None placeholders included), not N − K − M = 1 as
the claim states. -/
theorem batch_size_counterexample :
    [reqFailing, reqSkipped, reqDelivered].countP (fun r => isFailing envC2 r) = 1 ∧
    [reqFailing, reqSkipped, reqDelivered].countP (fun r => isUnsupported r) = 1 ∧
    ((generateAssetBatch envC2 clock0 [] [reqFailing, reqSkipped, reqDelivered]).1).length = 3 ∧
    (3 : Nat) ≠ 3 - 1 - 1 := by
  refine ⟨rfl, rfl, rfl, by omega⟩

set_option maxRecDepth 40000 in
/-- C2 witness: the amended count theorem applied to the concrete
three-request batch (N = 3, K = 1, M = 1): 3 returned entries, 1 of them an
asset, report counting 1 successful generation out of 3. -/
theorem batch_counts_witness :
    ((generateAssetBatch envC2 clock0 [] [reqFailing, reqSkipped, reqDelivered]).1).length = 3 ∧
    (((generateAssetBatch envC2 clock0 [] [reqFailing, reqSkipped, reqDelivered]).1).filter
      Option.isSome).length = 1 ∧
    (saveGenerationReport
        ((generateAssetBatch envC2 clock0 [] [reqFailing, reqSkipped, reqDelivered]).1)
        "ts").generation_session.successful_generations = 1 ∧
    (saveGenerationReport
        ((generateAssetBatch envC2 clock0 [] [reqFailing, reqSkipped, reqDelivered]).1)
        "ts").generation_session.total_assets = 3 := by
  have h := batch_counts envC2 clock0 [] "ts" [reqFailing, reqSkipped, reqDelivered]
    (by decide)
  have hK : [reqFailing, reqSkipped, reqDelivered].countP (fun r => isFailing envC2 r) = 1 := rfl
  have hM : [reqFailing, reqSkipped, reqDelivered].countP (fun r => isUnsupported r) = 1 := rfl
  have hN : ([reqFailing, reqSkipped, reqDelivered] : List AssetRequest).length = 3 := rfl
  rw [hK, hM, hN] at h
  exact h

end GenAssets

namespace GenAssets

/- A midjourney environment whose job completes with an empty 200 body. -/
def envPollEmpty : Env :=
  { env0 with
    mjSubmit := fun _ => .resp 200 (some "job7"),
    mjPoll := fun _ _ => .resp 200 "completed" (.ok []) }

/-- Sanity check for the `if image_data:` truthiness embedding: a completed
midjourney job whose fetched bytes are empty is not saved — the item yields
no asset and classifies as a failing item, not a delivered one. -/
theorem midjourney_empty_bytes_item_fails :
    (generateSingleAsset envPollEmpty [] clock0
      { prompt := "i", type := "2d", category := "ui" }).1 = none ∧
    isFailing envPollEmpty { prompt := "i", type := "2d", category := "ui" } = true ∧
    isDelivered envPollEmpty { prompt := "i", type := "2d", category := "ui" } = false := by
  exact ⟨rfl, rfl, rfl⟩

end GenAssets
